import Mathlib

set_option maxRecDepth 40000

/-!
Verification development for the adaptive signal and decision engine of this
repository (`candles.js`, `decisions.js`, `main.js`): a shallow embedding of
the indicator library, regime classifier, adaptive weighting, pattern and
micro-structure analyzers, the decision engine and the duration optimizer.

Conventions of the embedding:
* JavaScript numbers are modelled as exact rationals (`ℚ`).  `Math.sqrt` has
  no exact counterpart on `ℚ`, so every function whose source calls
  `Math.sqrt` takes an explicit `sqrt : ℚ → ℚ` parameter standing for it;
  theorems quantify over that parameter, and concrete witnesses instantiate
  it with a function agreeing with the real square root at every point where
  the traced run evaluates it.
* An array cell that can hold `null` (or be read out of bounds, yielding
  `undefined`) is modelled as `Option ℚ`.  JavaScript truthiness of such a
  value (`null`, `undefined` and `0` are falsy) is `truthyQ`; the `x || d`
  idiom is `jsOr x d`.
* `ℚ` has no `NaN`: division by zero yields `0`.  No statement below depends
  on a division by zero (the one place a degenerate input could divide by
  zero in the source feeds only fields that the stated claims do not read).
* The process-wide mutable globals `marketRegime` and `indicatorWeights`
  (`main.js` lines 38-39) are threaded explicitly as an `EngineState`; the
  engine returns its decision together with the post-call state.
* String `reason` fields are modelled as inductive tags, one per distinct
  message of the source (`insufficientData` = "Insufficient data",
  `indicatorsNotReady` = "Indicators not ready", `lowVolatility` =
  "Extremely low volatility - no edge", and one tag per action-selection
  branch for the interpolated messages).  The `rationale` string of the
  duration optimizer is display-only and omitted.
-/

/-- Last element of a JS array of nullable numbers: `a[a.length - 1]`.
An empty array gives `undefined`, collapsed to `none` like `null`. -/
def jsLast : List (Option ℚ) → Option ℚ
  | [] => none
  | [x] => x
  | _ :: x :: xs => jsLast (x :: xs)

/-- The JavaScript `x || d` idiom on a nullable number: `null`, `undefined`
and `0` are falsy and produce the default. -/
def jsOr (x : Option ℚ) (d : ℚ) : ℚ :=
  match x with
  | none => d
  | some v => if v = 0 then d else v

/-- JavaScript truthiness of a nullable number (`!x` is `¬ truthyQ x`). -/
def truthyQ : Option ℚ → Bool
  | none => false
  | some v => if v = 0 then false else true

/-- One OHLC candle (`candles.js` consumes objects with these fields). -/
structure Candle where
  open_ : ℚ
  high : ℚ
  low : ℚ
  close : ℚ
  epoch : ℤ
deriving DecidableEq

/-- One tick of the micro-structure buffer (`main.js` line 259). -/
structure Tick where
  epoch : ℤ
  quote : ℚ
deriving DecidableEq

/-! ### Indicator library (`candles.js` lines 4-100) -/

/-- `calcMA` (`candles.js` lines 4-15): simple moving average, `null` for
indices below `period - 1`. -/
def calcMA (period : ℕ) (values : List ℚ) : List (Option ℚ) :=
  (List.range values.length).map fun i =>
    if i < period - 1 then none
    else some (((values.drop (i + 1 - period)).take period).sum / (period : ℚ))

/-- Recurrence of `calcEMA`: `res[i] = values[i]*k + res[i-1]*(1-k)`. -/
def emaGo (k prev : ℚ) : List ℚ → List ℚ
  | [] => []
  | x :: xs =>
    let e := x * k + prev * (1 - k)
    e :: emaGo k e xs

/-- `calcEMA` (`candles.js` lines 17-28): seeded with `values[0]`, defined at
every index. -/
def calcEMA (period : ℕ) (values : List ℚ) : List ℚ :=
  let k : ℚ := 2 / ((period : ℚ) + 1)
  match values with
  | [] => []
  | v :: vs => v :: emaGo k v vs

/-- The RSI formula of `candles.js` lines 41 and 46. -/
def rsiVal (avgGain avgLoss : ℚ) : ℚ :=
  if avgLoss = 0 then 100 else 100 - 100 / (1 + avgGain / avgLoss)

/-- The Wilder smoothing loop of `calcRSI` (`candles.js` lines 42-47), one
output value per remaining (gain, loss) pair. -/
def rsiFrom (period : ℕ) (avgGain avgLoss : ℚ) : List (ℚ × ℚ) → List ℚ
  | [] => []
  | (g, l) :: rest =>
    let avgGain2 := (avgGain * ((period : ℚ) - 1) + g) / (period : ℚ)
    let avgLoss2 := (avgLoss * ((period : ℚ) - 1) + l) / (period : ℚ)
    rsiVal avgGain2 avgLoss2 :: rsiFrom period avgGain2 avgLoss2 rest

/-- `calcRSI` (`candles.js` lines 30-49): all `null` when the input length is
at most `period`; otherwise `null` up to index `period - 1`, the seeded value
at index `period`, then Wilder smoothing. -/
def calcRSI (period : ℕ) (values : List ℚ) : List (Option ℚ) :=
  if values.length ≤ period then List.replicate values.length none
  else
    let diffs := (values.zip values.tail).map fun p => p.2 - p.1
    let gains := diffs.map fun d => max 0 d
    let losses := diffs.map fun d => max 0 (-d)
    let avgGain := (gains.take period).sum / (period : ℚ)
    let avgLoss := (losses.take period).sum / (period : ℚ)
    List.replicate period none ++ some (rsiVal avgGain avgLoss) ::
      (rsiFrom period avgGain avgLoss ((gains.drop period).zip (losses.drop period))).map some

/-- One Bollinger record; all three components `null` during the warm-up. -/
structure BollingerBand where
  upper : Option ℚ
  middle : Option ℚ
  lower : Option ℚ
deriving DecidableEq

/-- `calcBollinger` (`candles.js` lines 51-65). -/
def calcBollinger (sqrt : ℚ → ℚ) (period : ℕ) (mult : ℚ) (values : List ℚ) :
    List BollingerBand :=
  (List.range values.length).map fun i =>
    if i < period - 1 then ⟨none, none, none⟩
    else
      let slice := (values.drop (i + 1 - period)).take period
      let mean := slice.sum / (period : ℚ)
      let variance := (slice.map fun b => (b - mean) ^ 2).sum / (period : ℚ)
      let std := sqrt variance
      ⟨some (mean + mult * std), some mean, some (mean - mult * std)⟩

/-- `calcVolatility` (`candles.js` lines 67-73): population standard deviation
of the last `period` closes; `0` when fewer than `period` closes exist. -/
def calcVolatility (sqrt : ℚ → ℚ) (period : ℕ) (closes : List ℚ) : ℚ :=
  if closes.length < period then 0
  else
    let slice := closes.drop (closes.length - period)
    let mean := slice.sum / (period : ℚ)
    let variance := (slice.map fun b => (b - mean) ^ 2).sum / (period : ℚ)
    sqrt variance

/-- Result record of `calcMACD`. -/
structure MACDResult where
  macdLine : List ℚ
  signalLine : List ℚ
  histogram : List ℚ
deriving DecidableEq

/-- `calcMACD` (`candles.js` lines 75-82).  The source maps with `(f, i) =>
f - emaSlow[i]` over arrays of equal length, rendered here by zipping. -/
def calcMACD (fastPeriod slowPeriod signalPeriod : ℕ) (values : List ℚ) : MACDResult :=
  let emaFast := calcEMA fastPeriod values
  let emaSlow := calcEMA slowPeriod values
  let macdLine := (emaFast.zip emaSlow).map fun p => p.1 - p.2
  let signalLine := calcEMA signalPeriod macdLine
  let histogram := (macdLine.zip signalLine).map fun p => p.1 - p.2
  ⟨macdLine, signalLine, histogram⟩

/-- The Wilder smoothing loop of `calcATR` (`candles.js` lines 96-98), one
output value per remaining true-range entry. -/
def atrFrom (period : ℕ) (prev : ℚ) : List ℚ → List ℚ
  | [] => []
  | t :: ts =>
    let a := (prev * ((period : ℚ) - 1) + t) / (period : ℚ)
    a :: atrFrom period a ts

/-- `calcATR` (`candles.js` lines 84-100): all `null` when fewer than
`period + 1` candles; otherwise the array literally built by the source:
`[null]`, then the mean of the first `period` true ranges, then one Wilder
value per further true range.  Note the source pushes the first real value at
index `1`, so the output has `length + 1 - period` entries, not `length`. -/
def calcATR (period : ℕ) (candles : List Candle) : List (Option ℚ) :=
  if candles.length < period + 1 then List.replicate candles.length none
  else
    let tr := (candles.zip candles.tail).map fun p =>
      max (p.2.high - p.2.low) (max |p.2.high - p.1.close| |p.2.low - p.1.close|)
    let first := (tr.take period).sum / (period : ℚ)
    none :: some first :: (atrFrom period first (tr.drop period)).map some

/-! ### Market regime detection (`candles.js` lines 103-151) -/

/-- Regime labels.  `UNKNOWN` is the initial value of the global
`marketRegime` (`main.js` line 38), before the first decision cycle. -/
inductive RegimeType
  | UNKNOWN
  | INSUFFICIENT_DATA
  | NEUTRAL
  | STRONG_UPTREND
  | STRONG_DOWNTREND
  | UPTREND
  | DOWNTREND
  | HIGH_VOLATILITY
  | CONSOLIDATION
deriving DecidableEq

/-- The regime record.  The insufficient-data branch of the source returns an
object without an `atr` property; that absent field is `none` here. -/
structure Regime where
  type : RegimeType
  volatility : ℚ
  trend : ℚ
  confidence : ℚ
  atr : Option ℚ
deriving DecidableEq

/-- `detectMarketRegime` (`candles.js` lines 103-151).  The source's local
booleans `isHighVol = volPercentage > 0.01` and
`isLowVol = volPercentage < 0.003` are inlined into the branch conditions. -/
def detectMarketRegime (sqrt : ℚ → ℚ) (candles : List Candle) : Regime :=
  if candles.length < 50 then ⟨.INSUFFICIENT_DATA, 0, 0, 0, none⟩
  else
    let closes := candles.map Candle.close
    let volatility := calcVolatility sqrt 20 closes
    let ma20 := calcMA 20 closes
    let ma50 := calcMA 50 closes
    let atr := calcATR 14 candles
    let currentPrice := closes.getLastD 0
    let ma20Current := jsLast ma20
    let ma50Current := jsLast ma50
    let atrCurrent := jsLast atr
    let trendStrength :=
      if truthyQ ma20Current ∧ truthyQ ma50Current then
        (ma20Current.getD 0 - ma50Current.getD 0) / ma50Current.getD 0
      else 0
    let _priceVsMA :=
      if truthyQ ma20Current then (currentPrice - ma20Current.getD 0) / ma20Current.getD 0
      else 0
    let volPercentage := volatility / currentPrice
    let typeConfidence : RegimeType × ℚ :=
      if |trendStrength| > 0.02 ∧ ¬ (volPercentage < 0.003) then
        (if trendStrength > 0 then .STRONG_UPTREND else .STRONG_DOWNTREND, 0.85)
      else if |trendStrength| > 0.01 then
        (if trendStrength > 0 then .UPTREND else .DOWNTREND, 0.7)
      else if volPercentage > 0.01 then (.HIGH_VOLATILITY, 0.6)
      else if volPercentage < 0.003 then (.CONSOLIDATION, 0.65)
      else (.NEUTRAL, 0.5)
    ⟨typeConfidence.1, volPercentage, trendStrength, typeConfidence.2, atrCurrent⟩

/-! ### Adaptive indicator weighting (`candles.js` lines 154-188) -/

/-- The five adaptive weights (`main.js` line 39). -/
structure IndicatorWeights where
  ma : ℚ
  rsi : ℚ
  bb : ℚ
  momentum : ℚ
  volume : ℚ
deriving DecidableEq

/-- The recent-performance record passed to `updateIndicatorWeights`
(`decisions.js` line 85 passes `{ winRate }`). -/
structure RecentPerformance where
  winRate : ℚ
deriving DecidableEq

/-- The `switch (regime.type)` of `updateIndicatorWeights` (`candles.js`
lines 156-178).  The three tabled regimes assign only `ma`, `momentum`,
`rsi`, `bb` and leave `volume` as it was; the default branch replaces the
whole object with all-ones. -/
def applyRegimeTable (t : RegimeType) (w : IndicatorWeights) : IndicatorWeights :=
  match t with
  | .STRONG_UPTREND | .STRONG_DOWNTREND =>
    { w with ma := 1.3, momentum := 1.4, rsi := 0.8, bb := 0.9 }
  | .HIGH_VOLATILITY =>
    { w with bb := 1.5, rsi := 1.2, ma := 0.7, momentum := 1.1 }
  | .CONSOLIDATION =>
    { w with bb := 1.3, rsi := 1.4, ma := 0.6, momentum := 0.5 }
  | _ => ⟨1, 1, 1, 1, 1⟩

/-- The `forEach (k => w[k] *= c)` loops of `candles.js` lines 183 and 186. -/
def scaleWeights (c : ℚ) (w : IndicatorWeights) : IndicatorWeights :=
  ⟨w.ma * c, w.rsi * c, w.bb * c, w.momentum * c, w.volume * c⟩

/-- `updateIndicatorWeights` (`candles.js` lines 154-188), written as an
explicit state transformer on the global weights object. -/
def updateIndicatorWeights (regime : Regime) (recentPerformance : RecentPerformance)
    (w : IndicatorWeights) : IndicatorWeights :=
  let w1 := applyRegimeTable regime.type w
  if recentPerformance.winRate > 0.65 then scaleWeights 1.1 w1
  else if recentPerformance.winRate < 0.45 then scaleWeights 0.85 w1
  else w1

/-- The win-rate scaling factor applied after the regime table, used to state
properties of `updateIndicatorWeights` (`candles.js` lines 181-187). -/
def winScale (p : RecentPerformance) : ℚ :=
  if p.winRate > 0.65 then 1.1 else if p.winRate < 0.45 then 0.85 else 1

/-- Whether a regime type has an entry in the weight lookup table of
`updateIndicatorWeights` (every other type takes the default branch). -/
def regimeTabled : RegimeType → Bool
  | .STRONG_UPTREND | .STRONG_DOWNTREND | .HIGH_VOLATILITY | .CONSOLIDATION => true
  | _ => false

/-! ### Candlestick pattern recognition (`candles.js` lines 191-238) -/

inductive PatternType
  | NONE
  | DOJI
  | HAMMER
  | SHOOTING_STAR
  | BULLISH_ENGULFING
  | BEARISH_ENGULFING
  | THREE_WHITE_SOLDIERS
  | THREE_BLACK_CROWS
deriving DecidableEq

inductive SignalType
  | NEUTRAL
  | REVERSAL_PENDING
  | BULLISH
  | BEARISH
  | STRONG_BULLISH
  | STRONG_BEARISH
deriving DecidableEq

structure Pattern where
  pattern : PatternType
  strength : ℚ
  signal : SignalType
deriving DecidableEq

/-- `identifyCandlestickPattern` (`candles.js` lines 191-238).  The source
guards `length < 3` and then reads the last three candles; dropping all but
the last three yields exactly a three-element list in that case, so the
fallback arm covers the short-input guard. -/
def identifyCandlestickPattern (candles : List Candle) : Pattern :=
  match candles.drop (candles.length - 3) with
  | [c1, c2, c3] =>
    let body1 := |c1.close - c1.open_|
    let body2 := |c2.close - c2.open_|
    let body3 := |c3.close - c3.open_|
    let upperWick3 := c3.high - max c3.open_ c3.close
    let lowerWick3 := min c3.open_ c3.close - c3.low
    let bodyRange3 := c3.high - c3.low
    let _ := body1
    if body3 < bodyRange3 * 0.1 ∧ bodyRange3 > 0 then ⟨.DOJI, 0.7, .REVERSAL_PENDING⟩
    else if lowerWick3 > body3 * 2 ∧ upperWick3 < body3 * 0.3 ∧ c3.close > c3.open_ then
      ⟨.HAMMER, 0.8, .BULLISH⟩
    else if upperWick3 > body3 * 2 ∧ lowerWick3 < body3 * 0.3 ∧ c3.close < c3.open_ then
      ⟨.SHOOTING_STAR, 0.8, .BEARISH⟩
    else if c2.close < c2.open_ ∧ c3.close > c3.open_ ∧ c3.open_ < c2.close ∧
        c3.close > c2.open_ ∧ body3 > body2 * 1.2 then
      ⟨.BULLISH_ENGULFING, 0.85, .BULLISH⟩
    else if c2.close > c2.open_ ∧ c3.close < c3.open_ ∧ c3.open_ > c2.close ∧
        c3.close < c2.open_ ∧ body3 > body2 * 1.2 then
      ⟨.BEARISH_ENGULFING, 0.85, .BEARISH⟩
    else if c1.close > c1.open_ ∧ c2.close > c2.open_ ∧ c3.close > c3.open_ ∧
        c2.close > c1.close ∧ c3.close > c2.close then
      ⟨.THREE_WHITE_SOLDIERS, 0.9, .STRONG_BULLISH⟩
    else if c1.close < c1.open_ ∧ c2.close < c2.open_ ∧ c3.close < c3.open_ ∧
        c2.close < c1.close ∧ c3.close < c2.close then
      ⟨.THREE_BLACK_CROWS, 0.9, .STRONG_BEARISH⟩
    else ⟨.NONE, 0, .NEUTRAL⟩
  | _ => ⟨.NONE, 0, .NEUTRAL⟩

/-! ### Micro-structure analysis (`candles.js` lines 241-276) -/

inductive PredictionType
  | UNCERTAIN
  | BULLISH_CONTINUATION
  | BEARISH_CONTINUATION
  | CONSOLIDATION_LIKELY
  | DOJI_FORMING
deriving DecidableEq

/-- The micro-structure record.  The short-buffer branch of the source
returns an object without a `confidence` property (`none` here). -/
structure MicroStructure where
  momentum : ℚ
  volatility : ℚ
  prediction : PredictionType
  confidence : Option ℚ
deriving DecidableEq

/-- `analyzeMicroStructure` (`candles.js` lines 241-276). -/
def analyzeMicroStructure (sqrt : ℚ → ℚ) (tickBuffer : List Tick)
    (currentCandle : Candle) : MicroStructure :=
  if tickBuffer.length < 10 then ⟨0, 0, .UNCERTAIN, none⟩
  else
    let recentTicks := tickBuffer.drop (tickBuffer.length - 20)
    let prices := recentTicks.map Tick.quote
    let avgPrice := prices.sum / (prices.length : ℚ)
    let momentum := (prices.getLastD 0 - prices.headD 0) / prices.headD 0
    let variance := (prices.map fun p => (p - avgPrice) ^ 2).sum / (prices.length : ℚ)
    let microVol := sqrt variance
    let currentBody := |currentCandle.close - currentCandle.open_|
    let currentRange := currentCandle.high - currentCandle.low
    let prediction :=
      if microVol / avgPrice > 0.001 ∧ momentum > 0.0005 then
        PredictionType.BULLISH_CONTINUATION
      else if microVol / avgPrice > 0.001 ∧ momentum < -0.0005 then
        PredictionType.BEARISH_CONTINUATION
      else if microVol / avgPrice < 0.0003 then PredictionType.CONSOLIDATION_LIKELY
      else if currentBody < currentRange * 0.2 then PredictionType.DOJI_FORMING
      else PredictionType.UNCERTAIN
    ⟨momentum, microVol / avgPrice, prediction, some (min ((recentTicks.length : ℚ) / 20) 1)⟩

/-! ### Recent performance and confidence adjustment (`decisions.js`) -/

inductive TradeResult
  | WIN
  | LOSS
  | OTHER
deriving DecidableEq

/-- One stored trade record, reduced to the only field the engine reads. -/
structure TradeRecord where
  result : TradeResult
deriving DecidableEq

/-- Win rate over the most recent up-to-20 stored trades (`decisions.js`
lines 79-82); `0.5` when the history is empty. -/
def computeWinRate (hist : List TradeRecord) : ℚ :=
  let recentTrades := hist.take 20
  if recentTrades.length > 0 then
    ((recentTrades.filter fun t => t.result == TradeResult.WIN).length : ℚ) /
      (recentTrades.length : ℚ)
  else 0.5

/-- The performance adjustment of the confidence (`decisions.js` lines
138-140). -/
def perfAdjustConfidence (winRate baseConfidence : ℚ) : ℚ :=
  if winRate > 0.6 then baseConfidence * 1.1
  else if winRate < 0.4 then baseConfidence * 0.85
  else baseConfidence

/-- The ternary of `decisions.js` line 110 applied to a weight. -/
def rsiSignalValue (rsiNow wrsi : ℚ) : ℚ :=
  (if rsiNow < 30 then 1 else if rsiNow > 70 then -1 else 0) * wrsi

/-- The RSI contribution to the composite signal: `decisions.js` line 98
computes `rsiNow = rsi[i] || 50` at the latest index and line 110 multiplies
the ternary by `indicatorWeights.rsi`. -/
def rsiSignalOf (closes : List ℚ) (wrsi : ℚ) : ℚ :=
  rsiSignalValue (jsOr (jsLast (calcRSI 14 closes)) 50) wrsi

/-! ### The decision engine (`decisions.js` lines 63-183) -/

inductive ActionType
  | HOLD
  | BUY
  | SELL
  | STRONG_BUY
  | STRONG_SELL
deriving DecidableEq

/-- Tags for the `reason` strings produced by `advancedDecisionEngine`. -/
inductive ReasonType
  | insufficientData
  | indicatorsNotReady
  | lowVolatility
  | bullishComposite
  | bearishComposite
  | moderateSignal
  | insufficientStrength
deriving DecidableEq

/-- The indicator snapshot object returned by the engine.  The low-volatility
return (`decisions.js` line 150) omits the `macd` key, rendered as `none`;
the final return (lines 176-178) includes it. -/
structure Snapshot where
  ma14Now : Option ℚ
  ma50Now : Option ℚ
  rsiNow : ℚ
  bbNow : BollingerBand
  volatility : ℚ
  atr : Option ℚ
  macd : Option ℚ
  pattern : Pattern
  microAnalysis : MicroStructure
deriving DecidableEq

/-- The decision object.  Fields absent from a given return-object literal of
the source are `none`. -/
structure Decision where
  action : ActionType
  reason : ReasonType
  confidence : ℚ
  compositeSignal : Option ℚ
  indicators : Option Snapshot
  regime : Option Regime
  weights : Option IndicatorWeights
deriving DecidableEq

/-- The two process-wide globals written by the engine (`main.js` 38-39). -/
structure EngineState where
  marketRegime : Regime
  indicatorWeights : IndicatorWeights
deriving DecidableEq

/-- The initial global state (`main.js` lines 38-39): regime `UNKNOWN` with
no `atr` field, all weights `1.0`. -/
def initialState : EngineState :=
  ⟨⟨.UNKNOWN, 0, 0, 0, none⟩, ⟨1, 1, 1, 1, 1⟩⟩

/-- Result of one engine call: the returned decision plus the post-call
values of the two globals. -/
structure EngineResult where
  decision : Decision
  state : EngineState
deriving DecidableEq

/-- The indicator snapshot assembled by the engine's return objects
(`decisions.js` lines 150 and 176-178), recomputed from the inputs.  All
index reads are at `i = closes.length - 1`: `ma14[i]`, `ma50[i]`, `bb[i]` and
`macd.histogram[i]` are last-element reads of index-aligned arrays, while
`atr[i]` reads `calcATR` (whose output is shorter than the input) out of
bounds, giving `undefined` (`none`). -/
def engineSnapshot (sqrt : ℚ → ℚ) (tickBuffer : List Tick) (candles : List Candle)
    (macdField : Option ℚ) : Snapshot :=
  let closes := candles.map Candle.close
  ⟨jsLast (calcMA 14 closes),
   jsLast (calcMA 50 closes),
   jsOr (jsLast (calcRSI 14 closes)) 50,
   (calcBollinger sqrt 20 2 closes).getLastD ⟨none, none, none⟩,
   calcVolatility sqrt 20 closes,
   ((calcATR 14 candles)[closes.length - 1]?).getD none,
   macdField,
   identifyCandlestickPattern candles,
   analyzeMicroStructure sqrt tickBuffer (candles.getLastD ⟨0, 0, 0, 0, 0⟩)⟩

/-- `advancedDecisionEngine` (`decisions.js` lines 63-183).  Notes:
* `rsiNow = rsi[i] || 50` is always a number, so the `rsiNow === null`
  disjunct of the guard at line 103 is vacuous and omitted; the guard keeps
  `ma14Now === null` and `!bbNow.upper`.
* The action-selection `else` branch always overwrites the initial reason
  `'No clear signal'` with the insufficient-strength message, so only the
  latter can be returned.
* The two snapshot object literals are factored through `engineSnapshot`,
  and the two uses of `rsi = calcRSI(closes, 14)` (the signal at line 110 and
  the snapshot field) live inside `rsiSignalOf` and `engineSnapshot`.
* The source's three returns inside the ≥50-candle branch (lines 104, 146,
  171) all happen after the two global mutations (lines 76 and 85); the pure
  translation therefore selects among the three decision objects with one
  `if`-chain and pairs the result with the already-updated state `s2`. -/
def advancedDecisionEngine (sqrt : ℚ → ℚ) (tickBuffer : List Tick)
    (hist : List TradeRecord) (s : EngineState) (candles : List Candle) : EngineResult :=
  if candles.length < 50 then
    ⟨⟨.HOLD, .insufficientData, 0, none, none, none, none⟩, s⟩
  else
    let closes := candles.map Candle.close
    let ma14 := calcMA 14 closes
    let bb := calcBollinger sqrt 20 2 closes
    let macd := calcMACD 12 26 9 closes
    let volatility := calcVolatility sqrt 20 closes
    let marketRegime := detectMarketRegime sqrt candles
    let winRate := computeWinRate hist
    let indicatorWeights := updateIndicatorWeights marketRegime ⟨winRate⟩ s.indicatorWeights
    let s2 : EngineState := ⟨marketRegime, indicatorWeights⟩
    let pattern := identifyCandlestickPattern candles
    let microAnalysis := analyzeMicroStructure sqrt tickBuffer (candles.getLastD ⟨0, 0, 0, 0, 0⟩)
    let price := closes.getLastD 0
    let prevPrice := (closes[closes.length - 2]?).getD 0
    let ma14Now := jsLast ma14
    let bbNow := bb.getLastD ⟨none, none, none⟩
    let macdNow := macd.histogram.getLastD 0
    let trendSignal := (if price > ma14Now.getD 0 then 1 else -1) * indicatorWeights.ma
    let momentumSignal := ((price - prevPrice) / prevPrice * 1000) * indicatorWeights.momentum
    let rsiSignal := rsiSignalOf closes indicatorWeights.rsi
    let bbSignal := (if price ≤ bbNow.lower.getD 0 then 1
      else if price ≥ bbNow.upper.getD 0 then -1 else 0) * indicatorWeights.bb
    let macdSignal := (if macdNow > 0 then 1 else -1) * 0.8
    let patternSignal : ℚ :=
      if pattern.signal = .BULLISH ∨ pattern.signal = .STRONG_BULLISH then pattern.strength
      else if pattern.signal = .BEARISH ∨ pattern.signal = .STRONG_BEARISH then
        -pattern.strength
      else 0
    let microSignal : ℚ :=
      if microAnalysis.prediction = .BULLISH_CONTINUATION then 0.6
      else if microAnalysis.prediction = .BEARISH_CONTINUATION then -0.6
      else 0
    let compositeSignal := trendSignal + momentumSignal + rsiSignal + bbSignal +
      macdSignal + patternSignal + microSignal
    let signalStrength := |compositeSignal|
    let base1 := min (signalStrength / 5) 1
    let base2 := base1 * marketRegime.confidence
    let base3 := if pattern.strength > 0.7 then base2 * 1.15 else base2
    let base4 := perfAdjustConfidence winRate base3
    let confidence := min base4 0.95
    let actionReason : ActionType × ReasonType :=
      if compositeSignal > 2.5 ∧ confidence > 0.65 then
        (if compositeSignal > 4 then .STRONG_BUY else .BUY, .bullishComposite)
      else if compositeSignal < -2.5 ∧ confidence > 0.65 then
        (if compositeSignal < -4 then .STRONG_SELL else .SELL, .bearishComposite)
      else if |compositeSignal| > 1.5 ∧ confidence > 0.7 then
        (if compositeSignal > 0 then .BUY else .SELL, .moderateSignal)
      else (.HOLD, .insufficientStrength)
    let decision : Decision :=
      if ma14Now = none ∨ ¬ truthyQ bbNow.upper then
        ⟨.HOLD, .indicatorsNotReady, 0, none, none, none, none⟩
      else if volatility < 0.002 then
        ⟨.HOLD, .lowVolatility, 0, none,
          some (engineSnapshot sqrt tickBuffer candles none), none, none⟩
      else
        ⟨actionReason.1, actionReason.2, confidence, some compositeSignal,
          some (engineSnapshot sqrt tickBuffer candles (some macdNow)),
          some marketRegime, some indicatorWeights⟩
    ⟨decision, s2⟩

/-- `detectMarketRegime` as it executes inside the page: with the two
process-wide globals in scope.  The source body reads neither of them, which
is what the memorylessness claim is about. -/
def detectMarketRegimeG (s : EngineState) (sqrt : ℚ → ℚ) (candles : List Candle) : Regime :=
  let _ := s
  detectMarketRegime sqrt candles

/-! ### Duration optimization (`decisions.js` lines 4-60) -/

/-- `Math.round` on a rational (round half away from zero is round half up
for the nonnegative values that occur; JavaScript rounds half up). -/
def jsRound (q : ℚ) : ℤ := ⌊q + 1 / 2⌋

/-- The duration plan; the display-only `rationale` string is omitted. -/
structure DurationPlan where
  duration : ℤ
  riskScore : ℚ
deriving DecidableEq

/-- `optimizeTradeDuration` (`decisions.js` lines 4-60).  `baseGranularity`
is `parseInt(granEl.value, 10)`, passed here as a parameter. -/
def optimizeTradeDuration (baseGranularity : ℤ) (decision : Decision) (regime : Regime)
    (volatility : ℚ) (pattern : Pattern) : DurationPlan :=
  let multRisk : ℚ × ℚ :=
    match regime.type with
    | .STRONG_UPTREND | .STRONG_DOWNTREND => (1.5, 0.3)
    | .HIGH_VOLATILITY => (0.7, 0.7)
    | .CONSOLIDATION => (0.8, 0.6)
    | _ => (1.0, 0.5)
  let multRisk2 : ℚ × ℚ :=
    if pattern.strength > 0.8 then (multRisk.1 * 1.2, multRisk.2 * 0.85) else multRisk
  let multRisk3 : ℚ × ℚ :=
    if volatility > 0.015 then (multRisk2.1 * 0.8, multRisk2.2 * 1.2)
    else if volatility < 0.005 then (multRisk2.1 * 1.1, multRisk2.2 * 0.9)
    else multRisk2
  let multRisk4 : ℚ × ℚ :=
    if decision.confidence > 0.8 then (multRisk3.1 * 1.15, multRisk3.2 * 0.9)
    else if decision.confidence < 0.6 then (multRisk3.1 * 0.85, multRisk3.2 * 1.1)
    else multRisk3
  let optimizedDuration := jsRound ((baseGranularity : ℚ) * multRisk4.1)
  let finalDuration := max baseGranularity (min optimizedDuration (baseGranularity * 3))
  ⟨finalDuration, min multRisk4.2 1⟩

/-! ### Concrete inputs used by counterexamples and witnesses -/

/-- Fifteen identical candles: enough for `calcATR`'s main branch
(`period + 1 = 15`), which nevertheless returns only 2 entries. -/
def atrMisalignInput : List Candle := List.replicate 15 ⟨1, 1, 1, 1, 0⟩

/-- Fifty strictly decreasing closes `100, 99, ..., 51`: every difference is
a loss, so the RSI at the last index is exactly `0`. -/
def decreasingCloses : List ℚ := (List.range 50).map fun i => (100 : ℚ) - (i : ℚ)

/-- Fifty closes alternating `-3/512` and `-1/512`.  Every trailing 20-window
holds ten of each, so its mean is `-1/256`, its variance `2 ^ (-18)` and its
standard deviation `2 ^ (-9) = 1/512 < 0.002`; the Bollinger upper band at
the last index is `-1/256 + 2/512 = 0` exactly.  All quantities are dyadic,
so IEEE doubles (and `Math.sqrt`, exact on squares of dyadics) compute the
very same values. -/
def altCloses : List ℚ :=
  (List.range 50).map fun i => if i % 2 = 0 then -3 / 512 else -1 / 512

/-- The closes above as flat candles (open = high = low = close). -/
def altCandles : List Candle := altCloses.map fun q => ⟨q, q, q, q, 0⟩

/-- A function standing for `Math.sqrt` in the run on `altCandles`: every
variance that run takes a square root of equals `2 ^ (-18)` (each 20-window
of the alternating closes holds ten of each value), and
`Math.sqrt (2 ^ (-18)) = 1/512` exactly, so the constant function agrees with
`Math.sqrt` at every evaluated point. -/
def sqrt512 : ℚ → ℚ := fun _ => 1 / 512

/-- A function standing for `Math.sqrt` in runs on constant-price candles:
every variance such a run takes a square root of is `0`, and
`Math.sqrt 0 = 0`. -/
def zeroSqrt : ℚ → ℚ := fun _ => 0

/-- Fifty identical candles at price 1: zero volatility, Bollinger upper
band `1` (truthy), so the low-volatility gate is reached and fires. -/
def constantCandles : List Candle := List.replicate 50 ⟨1, 1, 1, 1, 0⟩

/-- Fifty strictly increasing closes `0, 1, ..., 49`. -/
def increasingCloses : List ℚ := (List.range 50).map fun i => (i : ℚ)

/-- Fifteen closes whose fourteen differences are one gain of `1` and three
losses of `1`: the RSI at the last index is exactly
`100·(1/14) / (1/14 + 3/14) = 25`. -/
def rsi25Closes : List ℚ := [10, 11, 10, 9, 8, 8, 8, 8, 8, 8, 8, 8, 8, 8, 8]

/-! ### Helper lemmas -/

theorem jsLast_concat (l : List (Option ℚ)) (x : Option ℚ) : jsLast (l ++ [x]) = x := by
  induction l with
  | nil => rfl
  | cons a t ih =>
    cases t with
    | nil => rfl
    | cons b t2 => simpa [jsLast] using ih

theorem jsLast_append_cons (l1 : List (Option ℚ)) (a : Option ℚ) (l2 : List (Option ℚ)) :
    jsLast (l1 ++ a :: l2) = jsLast (a :: l2) := by
  induction l1 with
  | nil => rfl
  | cons b t ih =>
    cases t with
    | nil => simp [jsLast]
    | cons c t2 => simpa [jsLast] using ih

theorem jsLast_cons_all_eq (c : Option ℚ) : ∀ (l : List (Option ℚ)) (a : Option ℚ),
    (∀ y ∈ a :: l, y = c) → jsLast (a :: l) = c := by
  intro l
  induction l with
  | nil => intro a h; exact h a (by simp)
  | cons b t ih =>
    intro a h
    have : jsLast (a :: b :: t) = jsLast (b :: t) := rfl
    rw [this]
    exact ih b fun y hy => h y (by simpa using Or.inr hy)

/-- The last entry of `calcMA` is a number as soon as the final index has a
full window available. -/
theorem calcMA_last_isSome (p : ℕ) (values : List ℚ) (h0 : values ≠ [])
    (hp : ¬ values.length - 1 < p - 1) :
    ∃ q, jsLast (calcMA p values) = some q := by
  obtain ⟨n, hn⟩ : ∃ n, values.length = n + 1 := by
    cases values with
    | nil => exact absurd rfl h0
    | cons a t => exact ⟨t.length, rfl⟩
  unfold calcMA
  rw [hn, List.range_succ, List.map_append, List.map_cons, List.map_nil, jsLast_concat]
  rw [if_neg (by omega)]
  exact ⟨_, rfl⟩

/-- In a strictly increasing list, every adjacent pair taken by zipping with
the tail is increasing. -/
theorem zip_tail_lt (values : List ℚ) (h : values.Pairwise (· < ·)) :
    ∀ q ∈ values.zip values.tail, q.1 < q.2 := by
  induction values with
  | nil => simp
  | cons a t ih =>
    cases t with
    | nil => simp
    | cons b t2 =>
      intro q hq
      rw [List.pairwise_cons] at h
      simp only [List.tail_cons, List.zip_cons_cons, List.mem_cons] at hq
      rcases hq with h1 | h2
      · subst h1; exact h.1 b (by simp)
      · exact ih h.2 q (by simpa using h2)

/-- Wilder smoothing keeps a zero average loss at zero, so every further RSI
value is 100. -/
theorem rsiFrom_all_100 (p : ℕ) : ∀ (rest : List (ℚ × ℚ)),
    (∀ q ∈ rest, q.2 = 0) → ∀ (g : ℚ), ∀ y ∈ rsiFrom p g 0 rest, y = 100 := by
  intro rest
  induction rest with
  | nil => intro _ g y hy; simp [rsiFrom] at hy
  | cons hd tl ih =>
    intro hrest g y hy
    obtain ⟨gn, ln⟩ := hd
    have hln : ln = 0 := hrest (gn, ln) (by simp)
    subst hln
    rw [rsiFrom] at hy
    have hzero : ((0 : ℚ) * ((p : ℚ) - 1) + 0) / (p : ℚ) = 0 := by
      rw [zero_mul, add_zero, zero_div]
    rw [hzero] at hy
    rcases (by simpa using hy :
        y = rsiVal ((g * ((p : ℚ) - 1) + gn) / (p : ℚ)) 0 ∨
          y ∈ rsiFrom p ((g * ((p : ℚ) - 1) + gn) / (p : ℚ)) 0 tl) with h1 | h2
    · rw [h1, rsiVal, if_pos rfl]
    · exact ih (fun q hq => hrest q (by simp [hq])) _ y h2

/-! ### Claim theorems -/

/-- C1 (code bug): the claim states all six indicator functions are
length-aligned with their input; `calcATR` is not.  On 15 candles (the
smallest input taking the main branch at the default `period = 14`) it
returns a 2-element array — `[null]` plus the first averaged true range plus
one Wilder value per *further* true range, i.e. `n + 1 - period` entries —
instead of 15.  Downstream, `decisions.js` line 101 reads `atr[i]` at the
last candle index, which is therefore always out of bounds (`undefined`), so
alignment is clearly the intent and the early placement a slip.  (`calcMA`,
`calcEMA`, `calcRSI`, `calcBollinger` and `calcMACD` do satisfy the claim.) -/
theorem calcATR_length_mismatch :
    atrMisalignInput.length = 15 ∧ (calcATR 14 atrMisalignInput).length = 2 := by
  with_unfolding_all decide

/-- C2 (counterexample): `updateIndicatorWeights` is *not* independent of the
weight values left over from previous cycles: in a tabled regime
(`STRONG_UPTREND`) with a neutral win rate, two prior states differing only
in `volume` (1 versus 2) produce different results — the switch assigns only
`ma`, `momentum`, `rsi`, `bb` and leaves `volume` as it was, so the claimed
"volume defaulting to 1.0" does not hold. -/
theorem updateIndicatorWeights_volume_carryover :
    updateIndicatorWeights ⟨.STRONG_UPTREND, 0, 0, 0, none⟩ ⟨1 / 2⟩ ⟨1, 1, 1, 1, 1⟩ ≠
      updateIndicatorWeights ⟨.STRONG_UPTREND, 0, 0, 0, none⟩ ⟨1 / 2⟩ ⟨1, 1, 1, 1, 2⟩ := by
  with_unfolding_all decide

/-- C2 (amended): after one call to `updateIndicatorWeights`, the four
weights `ma`, `rsi`, `bb`, `momentum` are fully determined by the regime
lookup table followed by the win-rate scaling, with no dependence on the
previous weight values; `volume` is reset to 1.0 only by the default
(untabled) branch — in the `STRONG_*`, `HIGH_VOLATILITY` and `CONSOLIDATION`
regimes it carries over its previous value — and is then subject to the same
win-rate scaling. -/
theorem updateIndicatorWeights_characterization (r : Regime) (p : RecentPerformance)
    (w w' : IndicatorWeights) :
    (updateIndicatorWeights r p w).ma = (updateIndicatorWeights r p w').ma ∧
    (updateIndicatorWeights r p w).rsi = (updateIndicatorWeights r p w').rsi ∧
    (updateIndicatorWeights r p w).bb = (updateIndicatorWeights r p w').bb ∧
    (updateIndicatorWeights r p w).momentum = (updateIndicatorWeights r p w').momentum ∧
    (updateIndicatorWeights r p w).volume =
      (if regimeTabled r.type then w.volume else 1) * winScale p := by
  obtain ⟨t, rv, rt, rc, ra⟩ := r
  cases t <;>
    by_cases h1 : p.winRate > 0.65 <;>
    by_cases h2 : p.winRate < 0.45 <;>
    simp [updateIndicatorWeights, applyRegimeTable, scaleWeights, regimeTabled, winScale, h1, h2]

/-- C3 (counterexample): on fifty strictly decreasing closes the RSI at the
latest index is exactly `0` — which is below 30, so the claim predicts an
RSI contribution of `+weight.rsi` (here `+1`) — yet the engine's
`rsi[i] || 50` coercion treats the falsy `0` as missing and substitutes `50`,
making the contribution `0`. -/
theorem rsiSignal_zero_rsi_counterexample :
    decreasingCloses.length = 50 ∧
    jsLast (calcRSI 14 decreasingCloses) = some 0 ∧
    (0 : ℚ) < 30 ∧
    rsiSignalOf decreasingCloses 1 = 0 := by
  refine ⟨by with_unfolding_all decide, by with_unfolding_all decide, by norm_num,
    by with_unfolding_all decide⟩

/-- C3 (amended): whenever the RSI value at the latest index is a *nonzero*
number `v`, the RSI contribution to the composite signal equals
`(+1 if v < 30, −1 if v > 70, else 0) · weight.rsi`; in particular a nonzero
RSI below 30 contributes `+weight.rsi`.  (When the latest RSI is `0` or
`null`, the `|| 50` coercion uses `50` and the contribution is `0`.) -/
theorem rsiSignal_amended (closes : List ℚ) (w v : ℚ)
    (h : jsLast (calcRSI 14 closes) = some v) (hv : v ≠ 0) :
    rsiSignalOf closes w = (if v < 30 then 1 else if v > 70 then -1 else 0) * w := by
  simp [rsiSignalOf, rsiSignalValue, jsOr, h, hv]

/-- C3 (witness): a 15-close list whose RSI at the latest index is exactly
25 (nonzero, below 30); with `weight.rsi = 2` the contribution is `+2`. -/
theorem rsiSignal_amended_witness :
    jsLast (calcRSI 14 rsi25Closes) = some 25 ∧ (25 : ℚ) ≠ 0 ∧
      rsiSignalOf rsi25Closes 2 =
        (if (25 : ℚ) < 30 then 1 else if (25 : ℚ) > 70 then -1 else 0) * 2 :=
  ⟨by with_unfolding_all decide, by norm_num,
    rsiSignal_amended rsi25Closes 2 25 (by with_unfolding_all decide) (by norm_num)⟩

/-- C5 (confirmed): with fewer than 50 candles the engine returns exactly
`{HOLD, "Insufficient data", confidence 0}` — the decision carries no
composite signal, indicator snapshot, regime or weights, and the global
state is returned untouched, whatever the square root, tick buffer, trade
history and prior state are: nothing is computed before the early return. -/
theorem insufficientData_hold (sqrt : ℚ → ℚ) (tickBuffer : List Tick)
    (hist : List TradeRecord) (s : EngineState) (candles : List Candle)
    (h : candles.length < 50) :
    advancedDecisionEngine sqrt tickBuffer hist s candles =
      ⟨⟨.HOLD, .insufficientData, 0, none, none, none, none⟩, s⟩ := by
  simp only [advancedDecisionEngine]
  rw [if_pos h]

/-- C5 (witness): the empty candle list. -/
theorem insufficientData_hold_witness :
    ([] : List Candle).length < 50 ∧
      advancedDecisionEngine zeroSqrt [] [] initialState [] =
        ⟨⟨.HOLD, .insufficientData, 0, none, none, none, none⟩, initialState⟩ :=
  ⟨by decide, insufficientData_hold zeroSqrt [] [] initialState [] (by decide)⟩

/-- C8 (confirmed): `detectMarketRegime` reads no process-wide state — run in
any two global states (however they were reached) on the same candle
sequence, it returns identical regime records in every field. -/
theorem detectMarketRegime_memoryless (s1 s2 : EngineState) (sqrt : ℚ → ℚ)
    (candles : List Candle) :
    detectMarketRegimeG s1 sqrt candles = detectMarketRegimeG s2 sqrt candles := rfl

/-- C9 (confirmed): with an empty trade history the win rate is exactly 0.5,
so the weight update degenerates to the pure regime-table assignment (no
win-rate scaling: `0.5 ∈ [0.45, 0.65]`) and the performance adjustment of
the confidence is the identity (`0.5 ∈ [0.4, 0.6]`). -/
theorem emptyHistory_neutral (r : Regime) (w : IndicatorWeights) (b : ℚ) :
    computeWinRate [] = 1 / 2 ∧
    updateIndicatorWeights r ⟨computeWinRate []⟩ w = applyRegimeTable r.type w ∧
    perfAdjustConfidence (computeWinRate []) b = b := by
  have h : computeWinRate [] = 1 / 2 := by with_unfolding_all decide
  refine ⟨h, ?_, ?_⟩
  · rw [updateIndicatorWeights]
    rw [if_neg (by rw [h]; norm_num), if_neg (by rw [h]; norm_num)]
  · rw [perfAdjustConfidence]
    rw [if_neg (by rw [h]; norm_num), if_neg (by rw [h]; norm_num)]

/-- C4 (counterexample): fifty candles whose closes alternate `-3/512` and
`-1/512` have raw 20-close standard deviation `1/512 < 0.002`, yet the
engine does *not* return the low-volatility HOLD: the Bollinger upper band
at the latest index is exactly `0`, which is falsy, so the
`!bbNow.upper` guard at `decisions.js` line 103 returns
`{HOLD, "Indicators not ready", 0}` — with no indicator snapshot — before
the volatility gate at line 145 is ever reached. -/
theorem lowVol_gate_counterexample :
    altCandles.length = 50 ∧
    calcVolatility sqrt512 20 (altCandles.map Candle.close) < 0.002 ∧
    (advancedDecisionEngine sqrt512 [] [] initialState altCandles).decision =
      ⟨.HOLD, .indicatorsNotReady, 0, none, none, none, none⟩ :=
  ⟨by with_unfolding_all decide, by with_unfolding_all decide, by with_unfolding_all decide⟩

/-- C4 (amended): for every candle sequence of length ≥ 50 whose raw
20-period close standard deviation is below `0.002`, *provided the Bollinger
upper band at the latest index is truthy (nonzero)* — otherwise the
indicators-not-ready guard returns first — the engine returns action `HOLD`
with the low-volatility reason and confidence `0` regardless of the
composite signal, and the returned object still carries the computed
indicator snapshot (`ma14Now`, `ma50Now`, `rsiNow`, `bbNow`, `volatility`,
`atr`, `pattern`, `microAnalysis`; no `macd` field). -/
theorem lowVol_gate_amended (sqrt : ℚ → ℚ) (tickBuffer : List Tick) (hist : List TradeRecord)
    (s : EngineState) (candles : List Candle)
    (h50 : 50 ≤ candles.length)
    (hupper : truthyQ ((calcBollinger sqrt 20 2 (candles.map Candle.close)).getLastD
      ⟨none, none, none⟩).upper)
    (hvol : calcVolatility sqrt 20 (candles.map Candle.close) < 0.002) :
    (advancedDecisionEngine sqrt tickBuffer hist s candles).decision =
      ⟨.HOLD, .lowVolatility, 0, none,
        some (engineSnapshot sqrt tickBuffer candles none), none, none⟩ := by
  have h50' : ¬ candles.length < 50 := by omega
  have hne : candles.map Candle.close ≠ [] := by
    intro hEq
    have h0 : candles.length = 0 := by
      have := congrArg List.length hEq
      rwa [List.length_map, List.length_nil] at this
    omega
  obtain ⟨q, hq⟩ := calcMA_last_isSome 14 (candles.map Candle.close) hne
    (by simp only [List.length_map]; omega)
  simp only [advancedDecisionEngine]
  rw [if_neg h50']
  rw [if_neg (by
    rintro (hmm | hup)
    · rw [hq] at hmm; exact Option.noConfusion hmm
    · exact hup hupper)]
  rw [if_pos hvol]

/-- C4 (witness): fifty constant candles at price 1 — volatility `0`,
Bollinger upper band `1` (truthy) — take the low-volatility branch. -/
theorem lowVol_gate_amended_witness :
    50 ≤ constantCandles.length ∧
    truthyQ ((calcBollinger zeroSqrt 20 2 (constantCandles.map Candle.close)).getLastD
      ⟨none, none, none⟩).upper ∧
    calcVolatility zeroSqrt 20 (constantCandles.map Candle.close) < 0.002 ∧
    (advancedDecisionEngine zeroSqrt [] [] initialState constantCandles).decision =
      ⟨.HOLD, .lowVolatility, 0, none,
        some (engineSnapshot zeroSqrt [] constantCandles none), none, none⟩ :=
  ⟨by decide, by with_unfolding_all decide, by with_unfolding_all decide,
    lowVol_gate_amended zeroSqrt [] [] initialState constantCandles (by decide)
      (by with_unfolding_all decide) (by with_unfolding_all decide)⟩

/-- C6 (confirmed): for every positive integer base granularity and every
decision, regime, volatility and pattern, the optimized duration lies in
`[base, 3·base]` and the risk score is at most 1 — the final clamp
`max(base, min(round(base·mult), base·3))` and `min(riskScore, 1)` enforce
this for any multiplier the preceding adjustments produce. -/
theorem optimizeTradeDuration_bounds (base : ℤ) (decision : Decision) (regime : Regime)
    (volatility : ℚ) (pattern : Pattern) (hb : 1 ≤ base) :
    base ≤ (optimizeTradeDuration base decision regime volatility pattern).duration ∧
    (optimizeTradeDuration base decision regime volatility pattern).duration ≤ 3 * base ∧
    (optimizeTradeDuration base decision regime volatility pattern).riskScore ≤ 1 := by
  simp only [optimizeTradeDuration]
  refine ⟨le_max_left _ _, ?_, min_le_right _ _⟩
  exact max_le (by omega) (le_trans (min_le_right _ _) (by omega))

/-- C6 (witness): base granularity 5 with a neutral regime, a HOLD decision
of confidence 0, zero volatility and no pattern. -/
theorem optimizeTradeDuration_bounds_witness :
    (1 : ℤ) ≤ 5 ∧
    5 ≤ (optimizeTradeDuration 5 ⟨.HOLD, .insufficientData, 0, none, none, none, none⟩
      ⟨.NEUTRAL, 0, 0, 0, none⟩ 0 ⟨.NONE, 0, .NEUTRAL⟩).duration ∧
    (optimizeTradeDuration 5 ⟨.HOLD, .insufficientData, 0, none, none, none, none⟩
      ⟨.NEUTRAL, 0, 0, 0, none⟩ 0 ⟨.NONE, 0, .NEUTRAL⟩).duration ≤ 3 * 5 ∧
    (optimizeTradeDuration 5 ⟨.HOLD, .insufficientData, 0, none, none, none, none⟩
      ⟨.NEUTRAL, 0, 0, 0, none⟩ 0 ⟨.NONE, 0, .NEUTRAL⟩).riskScore ≤ 1 :=
  ⟨by decide, optimizeTradeDuration_bounds 5 _ _ _ _ (by decide)⟩

/-- C7 (confirmed): on every strictly increasing sequence of length at least
50, `calcRSI` with period 14 yields exactly 100 at the last index: every
difference is a gain, the average loss is 0 at the seed and stays 0 through
Wilder smoothing, and the zero-loss branch returns 100. -/
theorem calcRSI_strictMono_last (values : List ℚ) (h50 : 50 ≤ values.length)
    (hmono : values.Pairwise (· < ·)) :
    jsLast (calcRSI 14 values) = some 100 := by
  have hnle : ¬ values.length ≤ 14 := by omega
  have hlt := zip_tail_lt values hmono
  have hloss : ∀ y ∈ ((values.zip values.tail).map fun p => p.2 - p.1).map
      (fun d => max 0 (-d)), y = (0 : ℚ) := by
    intro y hy
    simp only [List.mem_map] at hy
    obtain ⟨d, ⟨pq, hpq, rfl⟩, rfl⟩ := hy
    have h1 := hlt pq hpq
    have h2 : -(pq.2 - pq.1) ≤ 0 := by linarith
    exact max_eq_left h2
  have havg : ((((values.zip values.tail).map fun p => p.2 - p.1).map
      (fun d => max 0 (-d))).take 14).sum / ((14 : ℕ) : ℚ) = 0 := by
    rw [List.sum_eq_zero fun y hy => hloss y (List.take_subset _ _ hy), zero_div]
  simp only [calcRSI]
  rw [if_neg hnle]
  rw [havg, jsLast_append_cons]
  apply jsLast_cons_all_eq
  intro y hy
  simp only [List.mem_cons, List.mem_map] at hy
  rcases hy with rfl | ⟨x, hx, rfl⟩
  · rw [rsiVal, if_pos rfl]
  · refine congrArg some ?_
    refine rsiFrom_all_100 14 _ ?_ _ x hx
    intro pq hpq
    have h2 := (List.of_mem_zip hpq).2
    exact hloss pq.2 (List.drop_subset _ _ h2)

/-- C7 (witness): the strictly increasing closes `0, 1, ..., 49`. -/
theorem calcRSI_strictMono_last_witness :
    50 ≤ increasingCloses.length ∧ increasingCloses.Pairwise (· < ·) ∧
      jsLast (calcRSI 14 increasingCloses) = some 100 :=
  ⟨by with_unfolding_all decide, by with_unfolding_all decide,
    calcRSI_strictMono_last increasingCloses (by with_unfolding_all decide)
      (by with_unfolding_all decide)⟩

/-- C10 (confirmed): the insufficient-data return (fewer than 50 candles)
leaves the process-wide regime and weights exactly as they were, while on
any input of 50 or more candles — including the runs that end in the
indicators-not-ready or low-volatility HOLD — both have already been
overwritten for the cycle: the regime with `detectMarketRegime` on the
current candles and the weights with `updateIndicatorWeights` under that
fresh regime and the current win rate. -/
theorem engine_state_frame (sqrt : ℚ → ℚ) (tickBuffer : List Tick) (hist : List TradeRecord)
    (s : EngineState) (candles : List Candle) :
    (advancedDecisionEngine sqrt tickBuffer hist s candles).state =
      (if candles.length < 50 then s
       else ⟨detectMarketRegime sqrt candles,
         updateIndicatorWeights (detectMarketRegime sqrt candles) ⟨computeWinRate hist⟩
           s.indicatorWeights⟩) := by
  unfold advancedDecisionEngine
  by_cases h : candles.length < 50
  · rw [if_pos h, if_pos h]
  · rw [if_neg h, if_neg h]
